import Mathlib

/-!
# Verification of the `LoopController` run-loop scheduler

A shallow embedding of `src/script/service/LoopController.js` from the
ProjectGamepad repository.

Modelling choices, all read directly off the source:
* Host-clock timestamps and millisecond quantities are `Int`; clock reads
  (`getCurrentTime()`) are passed in as an explicit `now` argument to each
  operation that reads the clock.
* The injected `requestFrame` function is modelled by an environment `Env`:
  the `k`-th call to `requestFrame` made by the controller returns the handle
  `Env.reqHandle k` (the state carries the call counter `reqCount`, which also
  serves as the observable record of how many frame requests were made).
  The global `cancelAnimationFrame` is modelled by recording the cancelled
  handle in the observable list `cancelled`.
* Registered step callbacks are identified by `Nat` tokens.  The behaviour of
  the callback with token `i` is `Env.cbEffect i`: when invoked it may mutate
  the two step registries (push / remove-first entries, exactly the mutations
  an owner can perform on the exposed mutable arrays) and append strings to an
  observable user log.  The controller model additionally records a
  `TraceEvent` for every callback invocation, capturing which callback ran, in
  which phase, and (for update steps) the elapsed-milliseconds argument.
* JavaScript numbers that reach `Math.round` are modelled as rationals `ℚ`;
  `Math.round x` (round half toward positive infinity) is `⌊x + 1/2⌋`.
-/

namespace ProjectGamepad

/-- An observable record of one callback invocation performed by the
controller: an update step receives the elapsed milliseconds, a render step
receives no argument. -/
inductive TraceEvent where
  | updateCall (id : Nat) (elapsedMs : Int)
  | renderCall (id : Nat)
deriving DecidableEq, Repr

/-- A mutation a step callback may perform on one of the exposed step
registries (`updateSteps` / `renderSteps` are plain mutable arrays in the
source; owners push and remove entries on them directly). -/
inductive ListMut where
  | push (id : Nat)
  | removeFirst (id : Nat)
deriving DecidableEq, Repr

/-- The effect of invoking one registered callback: strings appended to the
user-visible log and mutations applied to the two step registries. -/
structure CBEffect where
  log : List String
  updMuts : List ListMut
  rndMuts : List ListMut

/-- A callback with no observable effect. -/
def CBEffect.none : CBEffect := ⟨[], [], []⟩

/-- The external environment a `LoopController` instance is wired to: the
behaviour of each callback token and the handle returned by each successive
`requestFrame` call. -/
structure Env where
  cbEffect : Nat → CBEffect
  reqHandle : Nat → Int

/-- `INVALID_REQUEST_ID` from the source: sentinel marking that no frame
request is pending. -/
def INVALID_REQUEST_ID : Int := -1

/-- The full state of a `LoopController` instance, together with the
observable interaction record (`reqCount`, `cancelled`, `log`, `userLog`). -/
structure LoopState where
  isRunning : Bool
  isPaused : Bool
  startTimestamp : Int
  lastTimestamp : Int
  elapsedTimeInMilliseconds : Int
  frameRequestId : Int
  updateSteps : List Nat
  renderSteps : List Nat
  allowedOverflowThreshold : Int
  reqCount : Nat
  cancelled : List Int
  log : List TraceEvent
  userLog : List String
deriving DecidableEq, Repr

/-- The state of a freshly constructed controller (class-field initialisers of
the source; `allowedOverflowThreshold` is whatever the constructor computed). -/
def initState (allowedOverflowThreshold : Int) : LoopState where
  isRunning := false
  isPaused := false
  startTimestamp := 0
  lastTimestamp := 0
  elapsedTimeInMilliseconds := 0
  frameRequestId := INVALID_REQUEST_ID
  updateSteps := []
  renderSteps := []
  allowedOverflowThreshold := allowedOverflowThreshold
  reqCount := 0
  cancelled := []
  log := []
  userLog := []

/-- Apply one registry mutation to a registry. -/
def applyMut (l : List Nat) : ListMut → List Nat
  | .push id => l ++ [id]
  | .removeFirst id => l.erase id

/-- Apply a sequence of registry mutations in order. -/
def applyMuts (l : List Nat) (ms : List ListMut) : List Nat :=
  ms.foldl applyMut l

/-- Invoke the update-step callback `id` with argument `elapsedMs`:
`steps[i](elapsedTimeInMilliseconds)` in `LoopController.update`.  The
callback's registry mutations take effect and the invocation is recorded. -/
def invokeUpdate (env : Env) (elapsedMs : Int) (s : LoopState) (id : Nat) :
    LoopState :=
  { s with
    updateSteps := applyMuts s.updateSteps (env.cbEffect id).updMuts
    renderSteps := applyMuts s.renderSteps (env.cbEffect id).rndMuts
    log := s.log ++ [TraceEvent.updateCall id elapsedMs]
    userLog := s.userLog ++ (env.cbEffect id).log }

/-- Invoke the render-step callback `id`: `steps[i]()` in
`LoopController.render`. -/
def invokeRender (env : Env) (s : LoopState) (id : Nat) : LoopState :=
  { s with
    updateSteps := applyMuts s.updateSteps (env.cbEffect id).updMuts
    renderSteps := applyMuts s.renderSteps (env.cbEffect id).rndMuts
    log := s.log ++ [TraceEvent.renderCall id]
    userLog := s.userLog ++ (env.cbEffect id).log }

/-- `LoopController.update`: `const steps = [ ...updateSteps ]` snapshots the
registry, then every entry of the snapshot is invoked in order with the
elapsed milliseconds.  The fold iterates over the snapshot `s.updateSteps`
read before any callback runs, exactly as the source's array copy does. -/
def update (env : Env) (elapsedMs : Int) (s : LoopState) : LoopState :=
  s.updateSteps.foldl (invokeUpdate env elapsedMs) s

/-- `LoopController.render`: snapshots `renderSteps` at entry to the render
phase, then invokes every entry of the snapshot in order, with no argument. -/
def render (env : Env) (s : LoopState) : LoopState :=
  s.renderSteps.foldl (invokeRender env) s

/-- `LoopController.step`, the tick handler handed to `requestFrame`:
guard on `!isRunning || isPaused`; re-request the next frame; compute
`elapsedTime = now - lastTimestamp`; discard the tick when the elapsed time
exceeds `allowedOverflowThreshold` (still advancing `lastTimestamp`);
otherwise accumulate, run the update phase then the render phase, and advance
`lastTimestamp`. -/
def step (env : Env) (now : Int) (s : LoopState) : LoopState :=
  if !s.isRunning || s.isPaused then s
  else
    let s1 := { s with
      frameRequestId := env.reqHandle s.reqCount
      reqCount := s.reqCount + 1 }
    let elapsedTime := now - s1.lastTimestamp
    if elapsedTime > s1.allowedOverflowThreshold then
      { s1 with lastTimestamp := now }
    else
      let s2 := { s1 with
        elapsedTimeInMilliseconds := s1.elapsedTimeInMilliseconds + elapsedTime }
      let s3 := render env (update env elapsedTime s2)
      { s3 with lastTimestamp := now }

/-- `LoopController.start`: no-op while running; otherwise request a frame,
capture `startTimestamp` only when not resuming from pause, set
`lastTimestamp`, clear the paused flag and set the running flag. -/
def start (env : Env) (now : Int) (s : LoopState) : LoopState :=
  if s.isRunning then s
  else
    let s1 := { s with
      frameRequestId := env.reqHandle s.reqCount
      reqCount := s.reqCount + 1 }
    let s2 := if !s1.isPaused then { s1 with startTimestamp := now } else s1
    { s2 with lastTimestamp := now, isPaused := false, isRunning := true }

/-- `LoopController.stop`: no-op when not running or when no request is
pending; otherwise cancel the pending request, clear `frameRequestId` to the
sentinel and clear the running flag. -/
def stop (s : LoopState) : LoopState :=
  if !s.isRunning || s.frameRequestId == INVALID_REQUEST_ID then s
  else
    { s with
      cancelled := s.cancelled ++ [s.frameRequestId]
      frameRequestId := INVALID_REQUEST_ID
      isRunning := false }

/-- `LoopController.pause`: no-op when not running or already paused;
otherwise `stop()` followed by setting the paused flag. -/
def pause (s : LoopState) : LoopState :=
  if !s.isRunning || s.isPaused then s
  else { stop s with isPaused := true }

/-- An externally triggered operation on a controller instance: the public
methods, a tick-handler invocation by the Frame Source, and the owner
replacing the contents of the two exposed step registries. -/
inductive Op where
  | opStart (now : Int)
  | opStop
  | opPause
  | opTick (now : Int)
  | opSetSteps (upd rnd : List Nat)

/-- Apply one operation to the state. -/
def applyOp (env : Env) (s : LoopState) : Op → LoopState
  | .opStart now => start env now s
  | .opStop => stop s
  | .opPause => pause s
  | .opTick now => step env now s
  | .opSetSteps u r => { s with updateSteps := u, renderSteps := r }

/-- Run a sequence of operations from a state. -/
def run (env : Env) (s : LoopState) : List Op → LoopState
  | [] => s
  | op :: ops => run env (applyOp env s op) ops

/-! ## The constructor

`constructor(requestFrame = requestAnimationFrame, allowedOverflowFrames =
ALLOWED_OVERFLOW_FRAMES)` validates its arguments with tcomb and computes
`allowedOverflowThreshold = Math.round(allowedOverflowFrames * FRAMERATE)`.
JavaScript numbers are modelled as rationals. -/

/-- A JavaScript value as far as the constructor's tcomb validation can
distinguish: functions (tagged), numbers, and non-matching values. -/
inductive JSValue where
  | func (tag : Nat)
  | num (value : ℚ)
  | str (value : String)
  | boolean (value : Bool)
  | undef
deriving DecidableEq

/-- `t.Function.is`: true exactly on function values. -/
def tFunctionIs : JSValue → Bool
  | .func _ => true
  | _ => false

/-- `t.Number.is`: true exactly on number values. -/
def tNumberIs : JSValue → Bool
  | .num _ => true
  | _ => false

/-- The numeric payload of a number value. -/
def numValue : JSValue → ℚ
  | .num q => q
  | _ => 0

/-- `FRAMERATE = 1000/60` from the source. -/
def FRAMERATE : ℚ := 1000 / 60

/-- `ALLOWED_OVERFLOW_FRAMES = 10` from the source. -/
def ALLOWED_OVERFLOW_FRAMES : ℚ := 10

/-- `Math.round`: rounds to the nearest integer, halves toward positive
infinity, i.e. `⌊x + 1/2⌋`. -/
def jsMathRound (q : ℚ) : Int := ⌊q + 1 / 2⌋

/-- The constructor body after default-parameter substitution: tcomb
validation of both arguments (throwing a `TypeError` with the source's
message) and the computation of `allowedOverflowThreshold`. -/
def constructThreshold (requestFrame : JSValue) (allowedOverflowFrames : JSValue) :
    Except String Int :=
  if !tFunctionIs requestFrame then
    Except.error "Expected the requestFrame method to be a function"
  else if !tNumberIs allowedOverflowFrames then
    Except.error "Expected the allowedOverflowFrames to be a number"
  else
    Except.ok (jsMathRound (numValue allowedOverflowFrames * FRAMERATE))

/-- The host's `requestAnimationFrame`, the default for the first parameter:
some function value. -/
def requestAnimationFrameJS : JSValue := JSValue.func 0

/-- The constructor with JavaScript default-parameter semantics: an argument
that is not supplied takes its declared default. -/
def constructThresholdDefaults (requestFrame : Option JSValue)
    (allowedOverflowFrames : Option JSValue) : Except String Int :=
  constructThreshold (requestFrame.getD requestAnimationFrameJS)
    (allowedOverflowFrames.getD (JSValue.num ALLOWED_OVERFLOW_FRAMES))

/-! ## Derived notions used by the statements -/

/-- The contents of the render registry after the update phase has invoked
the callbacks `ids` in order, starting from registry contents `rnd`: each
update callback's render-registry mutations are applied in turn. -/
def rndAfter (env : Env) (ids : List Nat) (rnd : List Nat) : List Nat :=
  ids.foldl (fun r i => applyMuts r (env.cbEffect i).rndMuts) rnd

/-- The callback tokens of the update invocations in a trace, in order. -/
def updateIds (es : List TraceEvent) : List Nat :=
  es.filterMap fun e =>
    match e with
    | .updateCall id _ => some id
    | .renderCall _ => Option.none

/-- The callback tokens of the render invocations in a trace, in order. -/
def renderIds (es : List TraceEvent) : List Nat :=
  es.filterMap fun e =>
    match e with
    | .updateCall _ _ => Option.none
    | .renderCall id => some id

/-- A Frame Source that honours its contract: every handle it hands out is
distinct from the controller's internal sentinel `INVALID_REQUEST_ID`. -/
def GoodEnv (env : Env) : Prop :=
  ∀ k, env.reqHandle k ≠ INVALID_REQUEST_ID

/-- The controller-state invariant maintained under a contract-honouring
Frame Source: paused implies not running, and while running a genuine frame
request is pending. -/
def Inv (s : LoopState) : Prop :=
  (s.isPaused = true → s.isRunning = false) ∧
  (s.isRunning = true → s.frameRequestId ≠ INVALID_REQUEST_ID)

/-- Every tick in an operation sequence carries a timestamp no earlier than
the `lastTimestamp` the controller holds when that tick fires (the host clock
does not run backwards). -/
def opsOk (env : Env) (s : LoopState) : List Op → Bool
  | [] => true
  | op :: ops =>
    (match op with
     | .opTick now => decide (s.lastTimestamp ≤ now)
     | _ => true) && opsOk env (applyOp env s op) ops

/-- A sequence of tick timestamps is non-decreasing and non-overflowing
relative to the threshold `th`, starting from last-seen timestamp `last`. -/
def ticksOkFrom (th : Int) : Int → List Int → Bool
  | _, [] => true
  | last, t :: ts => (decide (last ≤ t) && decide (t - last ≤ th)) && ticksOkFrom th t ts

/-- The controller-owned scalar fields two states can agree on (everything
except the step registries and the two logs). -/
def coreAgrees (s s' : LoopState) : Prop :=
  s'.isRunning = s.isRunning ∧ s'.isPaused = s.isPaused ∧
  s'.startTimestamp = s.startTimestamp ∧ s'.lastTimestamp = s.lastTimestamp ∧
  s'.elapsedTimeInMilliseconds = s.elapsedTimeInMilliseconds ∧
  s'.frameRequestId = s.frameRequestId ∧ s'.reqCount = s.reqCount ∧
  s'.cancelled = s.cancelled ∧
  s'.allowedOverflowThreshold = s.allowedOverflowThreshold

/-! ## Concrete fixtures used by witnesses and counterexamples -/

/-- A contract-honouring Frame Source with effect-free callbacks. -/
def envPlain : Env where
  cbEffect := fun _ => CBEffect.none
  reqHandle := fun _ => 1

/-- Callback 0 logs "U", callback 1 logs "R"; contract-honouring handles. -/
def envUR : Env where
  cbEffect := fun i =>
    if i = 0 then ⟨["U"], [], []⟩ else if i = 1 then ⟨["R"], [], []⟩ else CBEffect.none
  reqHandle := fun k => Int.ofNat k + 1

/-- Update callback 0 pushes callback 1 onto the render registry when
invoked; contract-honouring handles. -/
def envRndPush : Env where
  cbEffect := fun i => if i = 0 then ⟨[], [], [ListMut.push 1]⟩ else CBEffect.none
  reqHandle := fun k => Int.ofNat k + 1

/-- A Frame Source whose every handle is the sentinel `-1`. -/
def envInvalid : Env where
  cbEffect := fun _ => CBEffect.none
  reqHandle := fun _ => -1

/-- A running controller with one update and one render step registered,
started at timestamp 0 against `envPlain`. -/
def sPlainRun : LoopState :=
  run envPlain (initState 167) [Op.opSetSteps [0] [1], Op.opStart 0]

/-- A running controller with the "U"-logging update step and the
"R"-logging render step registered, started at timestamp 0. -/
def sURRun : LoopState :=
  run envUR (initState 167) [Op.opSetSteps [0] [1], Op.opStart 0]

/-- A running controller whose single update step pushes a render step when
invoked; the render registry is empty at tick start. -/
def sMutRun : LoopState :=
  run envRndPush (initState 167) [Op.opSetSteps [0] [], Op.opStart 0]

/-- The state after `start(); pause()` against the `-1`-handle Frame Source:
paused and still running. -/
def sInvalidPaused : LoopState :=
  run envInvalid (initState 167) [Op.opStart 0, Op.opPause]

/-- The state after `start()` against the `-1`-handle Frame Source. -/
def sInvalidRun : LoopState :=
  run envInvalid (initState 167) [Op.opStart 0]

/-- The state after `start(); pause()` against the `-1`-handle Frame Source
with one registered update step. -/
def sInvalidHalted : LoopState :=
  run envInvalid (initState 167) [Op.opSetSteps [0] [], Op.opStart 0, Op.opPause]

/-- The operation sequence of the pause/resume scenario: register steps,
`start()` at `t0`, a sequence of ticks, then `pause()`. -/
def pauseResumeTrace (upd rnd : List Nat) (t0 : Int) (ticks : List Int) : List Op :=
  [Op.opSetSteps upd rnd, Op.opStart t0] ++ ticks.map Op.opTick ++ [Op.opPause]

/-! ## Lemmas about the two phases -/

theorem coreAgrees_refl (s : LoopState) : coreAgrees s s :=
  ⟨rfl, rfl, rfl, rfl, rfl, rfl, rfl, rfl, rfl⟩

theorem coreAgrees_trans {s t u : LoopState} (h1 : coreAgrees s t)
    (h2 : coreAgrees t u) : coreAgrees s u := by
  obtain ⟨a1, a2, a3, a4, a5, a6, a7, a8, a9⟩ := h1
  obtain ⟨b1, b2, b3, b4, b5, b6, b7, b8, b9⟩ := h2
  exact ⟨b1.trans a1, b2.trans a2, b3.trans a3, b4.trans a4, b5.trans a5,
    b6.trans a6, b7.trans a7, b8.trans a8, b9.trans a9⟩

theorem invokeUpdate_core (env : Env) (e : Int) (s : LoopState) (i : Nat) :
    coreAgrees s (invokeUpdate env e s i) :=
  ⟨rfl, rfl, rfl, rfl, rfl, rfl, rfl, rfl, rfl⟩

theorem invokeRender_core (env : Env) (s : LoopState) (i : Nat) :
    coreAgrees s (invokeRender env s i) :=
  ⟨rfl, rfl, rfl, rfl, rfl, rfl, rfl, rfl, rfl⟩

theorem foldlUpdate_core (env : Env) (e : Int) :
    ∀ (ids : List Nat) (s : LoopState),
      coreAgrees s (List.foldl (invokeUpdate env e) s ids)
  | [], s => coreAgrees_refl s
  | i :: ids, s =>
    coreAgrees_trans (invokeUpdate_core env e s i)
      (foldlUpdate_core env e ids (invokeUpdate env e s i))

theorem foldlRender_core (env : Env) :
    ∀ (ids : List Nat) (s : LoopState),
      coreAgrees s (List.foldl (invokeRender env) s ids)
  | [], s => coreAgrees_refl s
  | i :: ids, s =>
    coreAgrees_trans (invokeRender_core env s i)
      (foldlRender_core env ids (invokeRender env s i))

theorem foldlUpdate_log (env : Env) (e : Int) :
    ∀ (ids : List Nat) (s : LoopState),
      (List.foldl (invokeUpdate env e) s ids).log =
        s.log ++ ids.map (fun i => TraceEvent.updateCall i e) := by
  intro ids
  induction ids with
  | nil => intro s; simp
  | cons i ids ih =>
    intro s
    rw [List.foldl_cons, ih]
    simp [invokeUpdate]

theorem foldlUpdate_renderSteps (env : Env) (e : Int) :
    ∀ (ids : List Nat) (s : LoopState),
      (List.foldl (invokeUpdate env e) s ids).renderSteps =
        rndAfter env ids s.renderSteps := by
  intro ids
  induction ids with
  | nil => intro s; rfl
  | cons i ids ih =>
    intro s
    rw [List.foldl_cons, ih]
    rfl

theorem foldlRender_log (env : Env) :
    ∀ (ids : List Nat) (s : LoopState),
      (List.foldl (invokeRender env) s ids).log =
        s.log ++ ids.map TraceEvent.renderCall := by
  intro ids
  induction ids with
  | nil => intro s; simp
  | cons i ids ih =>
    intro s
    rw [List.foldl_cons, ih]
    simp [invokeRender]

theorem update_log (env : Env) (e : Int) (s : LoopState) :
    (update env e s).log = s.log ++ s.updateSteps.map (fun i => TraceEvent.updateCall i e) :=
  foldlUpdate_log env e s.updateSteps s

theorem update_renderSteps (env : Env) (e : Int) (s : LoopState) :
    (update env e s).renderSteps = rndAfter env s.updateSteps s.renderSteps :=
  foldlUpdate_renderSteps env e s.updateSteps s

theorem update_core (env : Env) (e : Int) (s : LoopState) :
    coreAgrees s (update env e s) :=
  foldlUpdate_core env e s.updateSteps s

theorem render_log (env : Env) (s : LoopState) :
    (render env s).log = s.log ++ s.renderSteps.map TraceEvent.renderCall :=
  foldlRender_log env s.renderSteps s

theorem render_core (env : Env) (s : LoopState) : coreAgrees s (render env s) :=
  foldlRender_core env s.renderSteps s

/-! ## Lemmas about `step` -/

theorem step_notRunning (env : Env) (now : Int) (s : LoopState)
    (h : s.isRunning = false) : step env now s = s := by
  simp [step, h]

theorem step_pausedState (env : Env) (now : Int) (s : LoopState)
    (h : s.isPaused = true) : step env now s = s := by
  simp [step, h]

theorem step_overflow (env : Env) (now : Int) (s : LoopState)
    (hr : s.isRunning = true) (hp : s.isPaused = false)
    (hov : s.allowedOverflowThreshold < now - s.lastTimestamp) :
    step env now s =
      { s with frameRequestId := env.reqHandle s.reqCount,
               reqCount := s.reqCount + 1,
               lastTimestamp := now } := by
  simp [step, hr, hp, hov]

theorem step_processed (env : Env) (now : Int) (s : LoopState)
    (hr : s.isRunning = true) (hp : s.isPaused = false)
    (hov : now - s.lastTimestamp ≤ s.allowedOverflowThreshold) :
    (step env now s).log =
      s.log ++ s.updateSteps.map (fun i => TraceEvent.updateCall i (now - s.lastTimestamp))
            ++ (rndAfter env s.updateSteps s.renderSteps).map TraceEvent.renderCall ∧
    (step env now s).elapsedTimeInMilliseconds =
      s.elapsedTimeInMilliseconds + (now - s.lastTimestamp) ∧
    (step env now s).lastTimestamp = now ∧
    (step env now s).isRunning = s.isRunning ∧
    (step env now s).isPaused = s.isPaused ∧
    (step env now s).startTimestamp = s.startTimestamp ∧
    (step env now s).frameRequestId = env.reqHandle s.reqCount ∧
    (step env now s).reqCount = s.reqCount + 1 ∧
    (step env now s).cancelled = s.cancelled ∧
    (step env now s).allowedOverflowThreshold = s.allowedOverflowThreshold := by
  have hcond : ¬ (s.allowedOverflowThreshold < now - s.lastTimestamp) := not_lt.mpr hov
  have hstep : step env now s =
      { render env (update env (now - s.lastTimestamp)
          { s with frameRequestId := env.reqHandle s.reqCount,
                   reqCount := s.reqCount + 1,
                   elapsedTimeInMilliseconds :=
                     s.elapsedTimeInMilliseconds + (now - s.lastTimestamp) })
        with lastTimestamp := now } := by
    simp [step, hr, hp, hcond]
  set s2 : LoopState :=
    { s with frameRequestId := env.reqHandle s.reqCount,
             reqCount := s.reqCount + 1,
             elapsedTimeInMilliseconds :=
               s.elapsedTimeInMilliseconds + (now - s.lastTimestamp) } with hs2
  have hcore : coreAgrees s2 (render env (update env (now - s.lastTimestamp) s2)) :=
    coreAgrees_trans (update_core env (now - s.lastTimestamp) s2)
      (render_core env (update env (now - s.lastTimestamp) s2))
  obtain ⟨c1, c2, c3, c4, c5, c6, c7, c8, c9⟩ := hcore
  have hlog : (render env (update env (now - s.lastTimestamp) s2)).log =
      s.log ++ s.updateSteps.map (fun i => TraceEvent.updateCall i (now - s.lastTimestamp))
            ++ (rndAfter env s.updateSteps s.renderSteps).map TraceEvent.renderCall := by
    rw [render_log, update_log, update_renderSteps]
  rw [hstep]
  refine ⟨hlog, ?_, rfl, ?_, ?_, ?_, ?_, ?_, ?_, ?_⟩
  · exact c5
  · exact c1
  · exact c2
  · exact c3
  · exact c6
  · exact c7
  · exact c8
  · exact c9

theorem step_flags (env : Env) (now : Int) (s : LoopState) :
    (step env now s).isRunning = s.isRunning ∧
    (step env now s).isPaused = s.isPaused ∧
    (step env now s).startTimestamp = s.startTimestamp ∧
    (step env now s).allowedOverflowThreshold = s.allowedOverflowThreshold := by
  cases hr : s.isRunning with
  | false => rw [step_notRunning env now s hr]; exact ⟨hr, rfl, rfl, rfl⟩
  | true =>
    cases hp : s.isPaused with
    | true => rw [step_pausedState env now s hp]; exact ⟨hr, hp, rfl, rfl⟩
    | false =>
      by_cases hov : now - s.lastTimestamp ≤ s.allowedOverflowThreshold
      · obtain ⟨_, _, _, h4, h5, h6, _, _, _, h10⟩ := step_processed env now s hr hp hov
        exact ⟨h4.trans hr, h5.trans hp, h6, h10⟩
      · rw [step_overflow env now s hr hp (not_le.mp hov)]
        exact ⟨hr, hp, rfl, rfl⟩

theorem step_elapsed_mono (env : Env) (now : Int) (s : LoopState)
    (h : s.lastTimestamp ≤ now) :
    s.elapsedTimeInMilliseconds ≤ (step env now s).elapsedTimeInMilliseconds := by
  cases hr : s.isRunning with
  | false => rw [step_notRunning env now s hr]
  | true =>
    cases hp : s.isPaused with
    | true => rw [step_pausedState env now s hp]
    | false =>
      by_cases hov : now - s.lastTimestamp ≤ s.allowedOverflowThreshold
      · obtain ⟨_, h2, _⟩ := step_processed env now s hr hp hov
        rw [h2]
        omega
      · rw [step_overflow env now s hr hp (not_le.mp hov)]

theorem step_frameRequestId_preserved (env : Env) (now : Int) (s : LoopState)
    (henv : GoodEnv env) (h : s.frameRequestId ≠ INVALID_REQUEST_ID) :
    (step env now s).frameRequestId ≠ INVALID_REQUEST_ID := by
  cases hr : s.isRunning with
  | false => rw [step_notRunning env now s hr]; exact h
  | true =>
    cases hp : s.isPaused with
    | true => rw [step_pausedState env now s hp]; exact h
    | false =>
      by_cases hov : now - s.lastTimestamp ≤ s.allowedOverflowThreshold
      · obtain ⟨_, _, _, _, _, _, h7, _⟩ := step_processed env now s hr hp hov
        rw [h7]; exact henv s.reqCount
      · rw [step_overflow env now s hr hp (not_le.mp hov)]
        exact henv s.reqCount

/-! ## Lemmas about `start`, `stop` and `pause` -/

theorem start_of_running (env : Env) (now : Int) (s : LoopState)
    (h : s.isRunning = true) : start env now s = s := by
  simp [start, h]

theorem start_fresh (env : Env) (now : Int) (s : LoopState)
    (hr : s.isRunning = false) (hp : s.isPaused = false) :
    start env now s =
      { s with frameRequestId := env.reqHandle s.reqCount,
               reqCount := s.reqCount + 1,
               startTimestamp := now,
               lastTimestamp := now,
               isPaused := false,
               isRunning := true } := by
  simp [start, hr, hp]

theorem start_resume (env : Env) (now : Int) (s : LoopState)
    (hr : s.isRunning = false) (hp : s.isPaused = true) :
    start env now s =
      { s with frameRequestId := env.reqHandle s.reqCount,
               reqCount := s.reqCount + 1,
               lastTimestamp := now,
               isPaused := false,
               isRunning := true } := by
  simp [start, hr, hp]

theorem stop_of_notRunning (s : LoopState) (h : s.isRunning = false) :
    stop s = s := by
  simp [stop, h]

theorem stop_of_invalid (s : LoopState) (h : s.frameRequestId = INVALID_REQUEST_ID) :
    stop s = s := by
  simp [stop, h]

theorem stop_acts (s : LoopState) (hr : s.isRunning = true)
    (hf : s.frameRequestId ≠ INVALID_REQUEST_ID) :
    stop s =
      { s with cancelled := s.cancelled ++ [s.frameRequestId],
               frameRequestId := INVALID_REQUEST_ID,
               isRunning := false } := by
  simp [stop, hr, hf]

theorem pause_of_notRunning (s : LoopState) (h : s.isRunning = false) :
    pause s = s := by
  simp [pause, h]

theorem pause_of_paused (s : LoopState) (h : s.isPaused = true) :
    pause s = s := by
  simp [pause, h]

theorem pause_acts (s : LoopState) (hr : s.isRunning = true)
    (hp : s.isPaused = false) :
    pause s = { stop s with isPaused := true } := by
  simp [pause, hr, hp]

theorem start_elapsed (env : Env) (now : Int) (s : LoopState) :
    (start env now s).elapsedTimeInMilliseconds = s.elapsedTimeInMilliseconds := by
  by_cases hr : s.isRunning = true
  · rw [start_of_running env now s hr]
  · have hr' : s.isRunning = false := by simpa using hr
    cases hp : s.isPaused with
    | false => rw [start_fresh env now s hr' hp]
    | true => rw [start_resume env now s hr' hp]

theorem stop_preserves (s : LoopState) :
    (stop s).elapsedTimeInMilliseconds = s.elapsedTimeInMilliseconds ∧
    (stop s).startTimestamp = s.startTimestamp ∧
    (stop s).lastTimestamp = s.lastTimestamp ∧
    (stop s).isPaused = s.isPaused := by
  by_cases hr : s.isRunning = true
  · by_cases hf : s.frameRequestId = INVALID_REQUEST_ID
    · rw [stop_of_invalid s hf]; exact ⟨rfl, rfl, rfl, rfl⟩
    · rw [stop_acts s hr hf]; exact ⟨rfl, rfl, rfl, rfl⟩
  · rw [stop_of_notRunning s (by simpa using hr)]; exact ⟨rfl, rfl, rfl, rfl⟩

theorem pause_preserves (s : LoopState) :
    (pause s).elapsedTimeInMilliseconds = s.elapsedTimeInMilliseconds ∧
    (pause s).startTimestamp = s.startTimestamp := by
  by_cases hr : s.isRunning = true
  · cases hp : s.isPaused with
    | true => rw [pause_of_paused s hp]; exact ⟨rfl, rfl⟩
    | false =>
      rw [pause_acts s hr hp]
      obtain ⟨p1, p2, _, _⟩ := stop_preserves s
      exact ⟨p1, p2⟩
  · rw [pause_of_notRunning s (by simpa using hr)]; exact ⟨rfl, rfl⟩

/-! ## Runs of operation sequences -/

theorem run_elapsed_mono (env : Env) :
    ∀ (ops : List Op) (s : LoopState), opsOk env s ops = true →
      s.elapsedTimeInMilliseconds ≤ (run env s ops).elapsedTimeInMilliseconds := by
  intro ops
  induction ops with
  | nil => intro s _; exact le_refl _
  | cons op ops ih =>
    intro s h
    simp only [opsOk, Bool.and_eq_true] at h
    refine le_trans ?_ (ih (applyOp env s op) h.2)
    cases op with
    | opTick now => exact step_elapsed_mono env now s (of_decide_eq_true h.1)
    | opStart now => exact le_of_eq (start_elapsed env now s).symm
    | opStop => exact le_of_eq (stop_preserves s).1.symm
    | opPause => exact le_of_eq (pause_preserves s).1.symm
    | opSetSteps u r => exact le_refl _

theorem applyOp_inv (env : Env) (henv : GoodEnv env) (s : LoopState) (op : Op)
    (h : Inv s) : Inv (applyOp env s op) := by
  obtain ⟨h1, h2⟩ := h
  cases op with
  | opStart now =>
    by_cases hr : s.isRunning = true
    · rw [applyOp, start_of_running env now s hr]; exact ⟨h1, h2⟩
    · have hr' : s.isRunning = false := by simpa using hr
      cases hp : s.isPaused with
      | false =>
        rw [applyOp, start_fresh env now s hr' hp]
        exact ⟨fun hh => absurd hh (by simp), fun _ => henv s.reqCount⟩
      | true =>
        rw [applyOp, start_resume env now s hr' hp]
        exact ⟨fun hh => absurd hh (by simp), fun _ => henv s.reqCount⟩
  | opStop =>
    by_cases hr : s.isRunning = true
    · by_cases hf : s.frameRequestId = INVALID_REQUEST_ID
      · rw [applyOp, stop_of_invalid s hf]; exact ⟨h1, h2⟩
      · rw [applyOp, stop_acts s hr hf]
        exact ⟨fun _ => rfl, fun hh => absurd hh (by simp)⟩
    · rw [applyOp, stop_of_notRunning s (by simpa using hr)]; exact ⟨h1, h2⟩
  | opPause =>
    by_cases hr : s.isRunning = true
    · cases hp : s.isPaused with
      | true => rw [applyOp, pause_of_paused s hp]; exact ⟨h1, h2⟩
      | false =>
        rw [applyOp, pause_acts s hr hp, stop_acts s hr (h2 hr)]
        exact ⟨fun _ => rfl, fun hh => absurd hh (by simp)⟩
    · rw [applyOp, pause_of_notRunning s (by simpa using hr)]; exact ⟨h1, h2⟩
  | opTick now =>
    by_cases hr : s.isRunning = true
    · cases hp : s.isPaused with
      | true => rw [applyOp, step_pausedState env now s hp]; exact ⟨h1, h2⟩
      | false =>
        obtain ⟨f1, f2, _, _⟩ := step_flags env now s
        refine ⟨fun hh => ?_, fun _ => ?_⟩
        · rw [applyOp] at hh
          rw [f2, hp] at hh
          exact absurd hh (by simp)
        · rw [applyOp]
          exact step_frameRequestId_preserved env now s henv (h2 hr)
    · rw [applyOp, step_notRunning env now s (by simpa using hr)]; exact ⟨h1, h2⟩
  | opSetSteps u r => exact ⟨h1, h2⟩

theorem run_inv (env : Env) (henv : GoodEnv env) :
    ∀ (ops : List Op) (s : LoopState), Inv s → Inv (run env s ops)
  | [], _, h => h
  | op :: ops, s, h =>
    run_inv env henv ops (applyOp env s op) (applyOp_inv env henv s op h)

theorem inv_initState (th : Int) : Inv (initState th) :=
  ⟨fun _ => rfl, fun h => nomatch h⟩

theorem runTicks_state (env : Env) (henv : GoodEnv env) :
    ∀ (ticks : List Int) (s : LoopState),
      s.isRunning = true → s.isPaused = false →
      s.frameRequestId ≠ INVALID_REQUEST_ID →
      (run env s (ticks.map Op.opTick)).isRunning = true ∧
      (run env s (ticks.map Op.opTick)).isPaused = false ∧
      (run env s (ticks.map Op.opTick)).frameRequestId ≠ INVALID_REQUEST_ID ∧
      (run env s (ticks.map Op.opTick)).startTimestamp = s.startTimestamp := by
  intro ticks
  induction ticks with
  | nil => intro s h1 h2 h3; exact ⟨h1, h2, h3, rfl⟩
  | cons t ts ih =>
    intro s h1 h2 h3
    obtain ⟨f1, f2, f3, _⟩ := step_flags env t s
    have h3' := step_frameRequestId_preserved env t s henv h3
    have hrest := ih (step env t s) (f1.trans h1) (f2.trans h2) h3'
    simp only [List.map_cons, run, applyOp]
    exact ⟨hrest.1, hrest.2.1, hrest.2.2.1, hrest.2.2.2.trans f3⟩

theorem run_append (env : Env) :
    ∀ (a b : List Op) (s : LoopState), run env s (a ++ b) = run env (run env s a) b
  | [], _, _ => rfl
  | op :: a, b, s => run_append env a b (applyOp env s op)

theorem updateIds_append (a b : List TraceEvent) :
    updateIds (a ++ b) = updateIds a ++ updateIds b :=
  List.filterMap_append a b _

theorem renderIds_append (a b : List TraceEvent) :
    renderIds (a ++ b) = renderIds a ++ renderIds b :=
  List.filterMap_append a b _

theorem updateIds_updateCalls (e : Int) :
    ∀ ids : List Nat, updateIds (ids.map fun i => TraceEvent.updateCall i e) = ids := by
  intro ids
  induction ids with
  | nil => rfl
  | cons i ids ih => simp only [List.map_cons, updateIds, List.filterMap_cons] at ih ⊢; rw [ih]

theorem updateIds_renderCalls :
    ∀ ids : List Nat, updateIds (ids.map TraceEvent.renderCall) = [] := by
  intro ids
  induction ids with
  | nil => rfl
  | cons i ids ih => simp only [List.map_cons, updateIds, List.filterMap_cons] at ih ⊢; rw [ih]

theorem renderIds_updateCalls (e : Int) :
    ∀ ids : List Nat, renderIds (ids.map fun i => TraceEvent.updateCall i e) = [] := by
  intro ids
  induction ids with
  | nil => rfl
  | cons i ids ih => simp only [List.map_cons, renderIds, List.filterMap_cons] at ih ⊢; rw [ih]

theorem renderIds_renderCalls :
    ∀ ids : List Nat, renderIds (ids.map TraceEvent.renderCall) = ids := by
  intro ids
  induction ids with
  | nil => rfl
  | cons i ids ih => simp only [List.map_cons, renderIds, List.filterMap_cons] at ih ⊢; rw [ih]

theorem jsMathRound_ten_framerate : jsMathRound (10 * FRAMERATE) = 167 := by
  have h : (10 : ℚ) * FRAMERATE + 1 / 2 = 1003 / 6 := by
    rw [FRAMERATE]; norm_num
  show (⌊(10 : ℚ) * FRAMERATE + 1 / 2⌋ : Int) = 167
  rw [h, Int.floor_eq_iff]
  constructor <;> norm_num

/-! ## The claims -/

/-- Claim C1: for every tick processed while running, if the computed elapsed
time (current timestamp minus `lastTimestamp`) is strictly greater than
`allowedOverflowThreshold`, the tick invokes no update step and no render
step, leaves `elapsedTimeInMilliseconds` unchanged, and sets `lastTimestamp`
to the tick's current timestamp. -/
theorem claim_C1 (env : Env) (now : Int) (s : LoopState)
    (hr : s.isRunning = true) (hp : s.isPaused = false)
    (hov : s.allowedOverflowThreshold < now - s.lastTimestamp) :
    (step env now s).log = s.log ∧
    (step env now s).userLog = s.userLog ∧
    (step env now s).elapsedTimeInMilliseconds = s.elapsedTimeInMilliseconds ∧
    (step env now s).lastTimestamp = now := by
  rw [step_overflow env now s hr hp hov]
  exact ⟨rfl, rfl, rfl, rfl⟩

/-- Witness for C1: a started controller at timestamp 0 with threshold 167
receives a tick at timestamp 200; the tick is discarded. -/
theorem claim_C1_witness :
    sPlainRun.isRunning = true ∧ sPlainRun.isPaused = false ∧
    sPlainRun.allowedOverflowThreshold < 200 - sPlainRun.lastTimestamp ∧
    ((step envPlain 200 sPlainRun).log = sPlainRun.log ∧
     (step envPlain 200 sPlainRun).userLog = sPlainRun.userLog ∧
     (step envPlain 200 sPlainRun).elapsedTimeInMilliseconds =
       sPlainRun.elapsedTimeInMilliseconds ∧
     (step envPlain 200 sPlainRun).lastTimestamp = 200) :=
  ⟨by decide, by decide, by decide,
   claim_C1 envPlain 200 sPlainRun (by decide) (by decide) (by decide)⟩

/-- Claim C4: `start()` is idempotent while running: a further call leaves
the entire controller state identical — in particular no additional
`requestFrame` call is made (`reqCount` is part of the state equality). -/
theorem claim_C4 (env : Env) (now : Int) (s : LoopState)
    (h : s.isRunning = true) : start env now s = s :=
  start_of_running env now s h

/-- Witness for C4: a second `start()` on a freshly started controller is the
identity. -/
theorem claim_C4_witness :
    sPlainRun.isRunning = true ∧ start envPlain 5 sPlainRun = sPlainRun :=
  ⟨by decide, claim_C4 envPlain 5 sPlainRun (by decide)⟩

/-- Claim C5: `stop()` from the Running state (with a genuine pending
request) sets `frameRequestId` to the sentinel, cancels the pending handle
via the Frame Source's cancel operation, leaves the accumulator and
`startTimestamp` unchanged, clears the running flag; and every tick-handler
invocation on a non-running controller returns immediately without mutating
any state. -/
theorem claim_C5 (s : LoopState) (hr : s.isRunning = true)
    (hf : s.frameRequestId ≠ INVALID_REQUEST_ID) :
    (stop s).frameRequestId = INVALID_REQUEST_ID ∧
    (stop s).cancelled = s.cancelled ++ [s.frameRequestId] ∧
    (stop s).elapsedTimeInMilliseconds = s.elapsedTimeInMilliseconds ∧
    (stop s).startTimestamp = s.startTimestamp ∧
    (stop s).isRunning = false ∧
    ∀ (env : Env) (now : Int) (t : LoopState), t.isRunning = false →
      step env now t = t := by
  rw [stop_acts s hr hf]
  exact ⟨rfl, rfl, rfl, rfl, rfl, fun env now t ht => step_notRunning env now t ht⟩

/-- Witness for C5: stopping the started controller. -/
theorem claim_C5_witness :
    sPlainRun.isRunning = true ∧
    sPlainRun.frameRequestId ≠ INVALID_REQUEST_ID ∧
    ((stop sPlainRun).frameRequestId = INVALID_REQUEST_ID ∧
     (stop sPlainRun).cancelled = sPlainRun.cancelled ++ [sPlainRun.frameRequestId] ∧
     (stop sPlainRun).elapsedTimeInMilliseconds = sPlainRun.elapsedTimeInMilliseconds ∧
     (stop sPlainRun).startTimestamp = sPlainRun.startTimestamp ∧
     (stop sPlainRun).isRunning = false ∧
     ∀ (env : Env) (now : Int) (t : LoopState), t.isRunning = false →
       step env now t = t) :=
  ⟨by decide, by decide, claim_C5 sPlainRun (by decide) (by decide)⟩

/-- Counterexample to C6 as stated: the claim predicts the tick's trace is
the tick-start update registry (as update calls) followed by the tick-start
render registry (as render calls); with an update step that pushes a render
step during the tick, the actual trace contains a render call the tick-start
render registry (empty here) does not predict. -/
theorem claim_C6_cex :
    (step envRndPush 16 sMutRun).log ≠
      sMutRun.log
        ++ sMutRun.updateSteps.map
            (fun i => TraceEvent.updateCall i (16 - sMutRun.lastTimestamp))
        ++ sMutRun.renderSteps.map TraceEvent.renderCall := by
  decide

/-- Claim C6 amended: in every non-overflow tick all update steps run before
any render step, update steps run in the registration order the update
registry had at tick start, each receiving the tick's elapsed milliseconds,
and render steps run with no argument in the registration order the render
registry had at entry to the render phase — the tick-start contents as
modified by any mutations the update-step callbacks performed during the
tick's update phase; concretely, one "U"-logging update step and one
"R"-logging render step produce the log `["U", "R"]` in a single
non-overflow tick. -/
theorem claim_C6 (env : Env) (now : Int) (s : LoopState)
    (hr : s.isRunning = true) (hp : s.isPaused = false)
    (hov : now - s.lastTimestamp ≤ s.allowedOverflowThreshold) :
    (step env now s).log =
      s.log ++ s.updateSteps.map (fun i => TraceEvent.updateCall i (now - s.lastTimestamp))
            ++ (rndAfter env s.updateSteps s.renderSteps).map TraceEvent.renderCall ∧
    (step envUR 16 sURRun).userLog = ["U", "R"] :=
  ⟨(step_processed env now s hr hp hov).1, by decide⟩

/-- Witness for C6: a single non-overflow tick of the started "U"/"R"
controller. -/
theorem claim_C6_witness :
    sURRun.isRunning = true ∧ sURRun.isPaused = false ∧
    16 - sURRun.lastTimestamp ≤ sURRun.allowedOverflowThreshold ∧
    ((step envUR 16 sURRun).log =
      sURRun.log ++ sURRun.updateSteps.map
          (fun i => TraceEvent.updateCall i (16 - sURRun.lastTimestamp))
        ++ (rndAfter envUR sURRun.updateSteps sURRun.renderSteps).map
            TraceEvent.renderCall ∧
     (step envUR 16 sURRun).userLog = ["U", "R"]) :=
  ⟨by decide, by decide, by decide,
   claim_C6 envUR 16 sURRun (by decide) (by decide) (by decide)⟩

/-- Counterexample to C2 as stated: with one update step that pushes a render
step during the tick, the render steps executed in that same tick are not the
contents the render registry had at the start of the tick (the new step runs
in the same tick). -/
theorem claim_C2_cex :
    renderIds ((step envRndPush 16 sMutRun).log.drop sMutRun.log.length) ≠
      sMutRun.renderSteps := by
  decide

/-- Claim C2 amended: in every non-overflow tick the update steps executed
are exactly the update registry's contents at the start of the tick (so
mutations during the tick cannot affect the update phase), and the render
steps executed are exactly the render registry's contents at the start of the
render phase — that is, after the update phase's mutations have been applied;
mutations made by render callbacks themselves cannot affect the set executed. -/
theorem claim_C2 (env : Env) (now : Int) (s : LoopState)
    (hr : s.isRunning = true) (hp : s.isPaused = false)
    (hov : now - s.lastTimestamp ≤ s.allowedOverflowThreshold) :
    updateIds ((step env now s).log.drop s.log.length) = s.updateSteps ∧
    renderIds ((step env now s).log.drop s.log.length) =
      rndAfter env s.updateSteps s.renderSteps := by
  obtain ⟨hlog, _⟩ := step_processed env now s hr hp hov
  rw [hlog, List.append_assoc, List.drop_left]
  constructor
  · rw [updateIds_append, updateIds_updateCalls, updateIds_renderCalls,
      List.append_nil]
  · rw [renderIds_append, renderIds_updateCalls, renderIds_renderCalls,
      List.nil_append]

/-- Witness for the amended C2: the mutating tick of the counterexample
scenario, where the executed render steps equal the render registry as it
stood after the update phase. -/
theorem claim_C2_witness :
    sMutRun.isRunning = true ∧ sMutRun.isPaused = false ∧
    16 - sMutRun.lastTimestamp ≤ sMutRun.allowedOverflowThreshold ∧
    (updateIds ((step envRndPush 16 sMutRun).log.drop sMutRun.log.length) =
      sMutRun.updateSteps ∧
     renderIds ((step envRndPush 16 sMutRun).log.drop sMutRun.log.length) =
      rndAfter envRndPush sMutRun.updateSteps sMutRun.renderSteps) :=
  ⟨by decide, by decide, by decide,
   claim_C2 envRndPush 16 sMutRun (by decide) (by decide) (by decide)⟩

/-- Counterexample to C7 as stated: with the default count 10 the stored
threshold is the rounded value 167, which is not `10 * (1000/60) = 500/3`. -/
theorem claim_C7_cex :
    constructThreshold (JSValue.func 0) (JSValue.num 10) = Except.ok 167 ∧
    (167 : ℚ) ≠ 10 * (1000 / 60) := by
  constructor
  · show Except.ok (jsMathRound ((10 : ℚ) * FRAMERATE)) = Except.ok 167
    rw [jsMathRound_ten_framerate]
  · norm_num

/-- Claim C7 amended: for every numeric `overflowFrameCount` the constructor
stores `allowedOverflowThreshold = Math.round(overflowFrameCount * (1000/60))`
(the source applies `Math.round`), and the default count when none is
supplied is 10, giving a threshold of 167 ms. -/
theorem claim_C7 (f : Nat) (q : ℚ) :
    constructThreshold (JSValue.func f) (JSValue.num q) =
      Except.ok (jsMathRound (q * FRAMERATE)) ∧
    constructThresholdDefaults (some (JSValue.func f)) Option.none =
      Except.ok (jsMathRound (ALLOWED_OVERFLOW_FRAMES * FRAMERATE)) ∧
    ALLOWED_OVERFLOW_FRAMES = 10 ∧
    jsMathRound (ALLOWED_OVERFLOW_FRAMES * FRAMERATE) = 167 := by
  refine ⟨rfl, rfl, rfl, ?_⟩
  show jsMathRound ((10 : ℚ) * FRAMERATE) = 167
  exact jsMathRound_ten_framerate

/-- Claim C8: construction raises the invalid-argument error exactly when the
supplied `requestFrame` is not callable or the supplied overflow-frame count
is not numeric; every valid pair constructs successfully. -/
theorem claim_C8 (requestFrame allowedOverflowFrames : JSValue) :
    ((∃ msg, constructThreshold requestFrame allowedOverflowFrames = Except.error msg) ↔
      (tFunctionIs requestFrame = false ∨ tNumberIs allowedOverflowFrames = false)) ∧
    (tFunctionIs requestFrame = true → tNumberIs allowedOverflowFrames = true →
      constructThreshold requestFrame allowedOverflowFrames =
        Except.ok (jsMathRound (numValue allowedOverflowFrames * FRAMERATE))) := by
  cases requestFrame <;> cases allowedOverflowFrames <;>
    simp [constructThreshold, tFunctionIs, tNumberIs]

/-- Witness for C8: a function and the number 10 construct successfully. -/
theorem claim_C8_witness :
    tFunctionIs (JSValue.func 0) = true ∧ tNumberIs (JSValue.num 10) = true ∧
    constructThreshold (JSValue.func 0) (JSValue.num 10) =
      Except.ok (jsMathRound (numValue (JSValue.num 10) * FRAMERATE)) :=
  ⟨rfl, rfl, (claim_C8 (JSValue.func 0) (JSValue.num 10)).2 rfl rfl⟩

/-- Counterexample to C9 as stated: against a Frame Source that returns the
sentinel `-1` as its handle, the state reached by `start(); pause()` is both
paused and running, so the claimed invariant fails on a reachable state. -/
theorem claim_C9_cex :
    sInvalidPaused.isPaused = true ∧ sInvalidPaused.isRunning = true := by
  decide

/-- Claim C9 amended: provided the injected `requestFrame` never returns the
internal sentinel `-1`, every state reachable from construction by any
sequence of `start()`, `stop()`, `pause()` calls, tick-handler invocations
and step-registry edits satisfies: `isPaused = true` implies
`isRunning = false`. -/
theorem claim_C9 (env : Env) (henv : GoodEnv env) (th : Int) (ops : List Op)
    (h : (run env (initState th) ops).isPaused = true) :
    (run env (initState th) ops).isRunning = false :=
  (run_inv env henv ops (initState th) (inv_initState th)).1 h

/-- Witness for C9: against the well-behaved Frame Source, after
`start(); pause()` the controller is paused and not running. -/
theorem claim_C9_witness :
    GoodEnv envPlain ∧
    (run envPlain (initState 167) [Op.opStart 0, Op.opPause]).isPaused = true ∧
    (run envPlain (initState 167) [Op.opStart 0, Op.opPause]).isRunning = false :=
  ⟨fun _ => by show (1 : Int) ≠ -1; decide,
   by decide,
   claim_C9 envPlain (fun _ => by show (1 : Int) ≠ -1; decide) 167
     [Op.opStart 0, Op.opPause] (by decide)⟩

/-- Counterexample to C10 as stated: with the `-1`-handle Frame Source,
`pause()` does halt the loop — after `start(); pause()` the controller is
paused and a subsequent tick-handler invocation is a complete no-op — so "the
loop cannot be halted by stop() or pause()" fails. -/
theorem claim_C10_cex :
    sInvalidHalted.isPaused = true ∧
    step envInvalid 16 sInvalidHalted = sInvalidHalted := by
  constructor
  · decide
  · decide

/-- Claim C10 amended: when the injected `requestFrame` returns `-1` as a
genuine handle, `stop()` while Running is a complete no-op (state unchanged,
so `isRunning` stays true and no cancellation is requested), and the loop
cannot be halted by `stop()`; `pause()` however does take effect: it sets the
paused flag while leaving `isRunning` true and cancelling nothing, and every
subsequent tick-handler invocation returns immediately. -/
theorem claim_C10 (s : LoopState) (hr : s.isRunning = true)
    (hf : s.frameRequestId = INVALID_REQUEST_ID) :
    stop s = s ∧
    (s.isPaused = false →
      (pause s).isPaused = true ∧ (pause s).isRunning = true ∧
      (pause s).cancelled = s.cancelled ∧
      ∀ (env : Env) (now : Int), step env now (pause s) = pause s) := by
  refine ⟨stop_of_invalid s hf, fun hp => ?_⟩
  rw [pause_acts s hr hp, stop_of_invalid s hf]
  exact ⟨rfl, hr, rfl, fun env now => step_pausedState env now _ rfl⟩

/-- Witness for C10: the started controller against the `-1`-handle Frame
Source. -/
theorem claim_C10_witness :
    sInvalidRun.isRunning = true ∧
    sInvalidRun.frameRequestId = INVALID_REQUEST_ID ∧
    (stop sInvalidRun = sInvalidRun ∧
     (sInvalidRun.isPaused = false →
       (pause sInvalidRun).isPaused = true ∧ (pause sInvalidRun).isRunning = true ∧
       (pause sInvalidRun).cancelled = sInvalidRun.cancelled ∧
       ∀ (env : Env) (now : Int),
         step env now (pause sInvalidRun) = pause sInvalidRun)) :=
  ⟨by decide, by decide, claim_C10 sInvalidRun (by decide) (by decide)⟩

/-- Claim C3: for every trace `start()` at `t0`, any sequence of
non-overflowing ticks, `pause()`, then `start()` again: after the second
`start()`, `startTimestamp` equals the value captured by the first `start()`
(not the resume time), and `elapsedTimeInMilliseconds` at every later point
is at least its value at the moment of `pause()`. -/
theorem claim_C3 (env : Env) (henv : GoodEnv env) (th : Int)
    (upd rnd : List Nat) (t0 : Int) (ticks : List Int) (tResume : Int)
    (_hticks : ticksOkFrom th t0 ticks = true) :
    (start env tResume
        (run env (initState th) (pauseResumeTrace upd rnd t0 ticks))).startTimestamp = t0 ∧
    ∀ (later : List Op),
      opsOk env
        (start env tResume (run env (initState th) (pauseResumeTrace upd rnd t0 ticks)))
        later = true →
      (run env (initState th) (pauseResumeTrace upd rnd t0 ticks)).elapsedTimeInMilliseconds ≤
        (run env
          (start env tResume (run env (initState th) (pauseResumeTrace upd rnd t0 ticks)))
          later).elapsedTimeInMilliseconds := by
  have hrun : run env (initState th) (pauseResumeTrace upd rnd t0 ticks) =
      pause (run env
        (start env t0 { initState th with updateSteps := upd, renderSteps := rnd })
        (ticks.map Op.opTick)) := by
    unfold pauseResumeTrace
    rw [run_append, run_append]
    rfl
  set sSet : LoopState := { initState th with updateSteps := upd, renderSteps := rnd }
    with hsSet
  set s1 : LoopState := start env t0 sSet with hs1def
  set s2 : LoopState := run env s1 (ticks.map Op.opTick) with hs2def
  have hs1 : s1 =
      { sSet with frameRequestId := env.reqHandle sSet.reqCount,
                  reqCount := sSet.reqCount + 1,
                  startTimestamp := t0,
                  lastTimestamp := t0,
                  isPaused := false,
                  isRunning := true } :=
    start_fresh env t0 sSet rfl rfl
  have h1r : s1.isRunning = true := by rw [hs1]
  have h1p : s1.isPaused = false := by rw [hs1]
  have h1f : s1.frameRequestId ≠ INVALID_REQUEST_ID := by
    rw [hs1]; exact henv sSet.reqCount
  have h1st : s1.startTimestamp = t0 := by rw [hs1]
  obtain ⟨h2r, h2p, h2f, h2st⟩ := runTicks_state env henv ticks s1 h1r h1p h1f
  have hpau : pause s2 = { stop s2 with isPaused := true } := pause_acts s2 h2r h2p
  have hstp : stop s2 =
      { s2 with cancelled := s2.cancelled ++ [s2.frameRequestId],
                frameRequestId := INVALID_REQUEST_ID,
                isRunning := false } :=
    stop_acts s2 h2r h2f
  have h3r : (pause s2).isRunning = false := by rw [hpau, hstp]
  have h3p : (pause s2).isPaused = true := by rw [hpau]
  have h3st : (pause s2).startTimestamp = t0 := by
    rw [hpau, hstp]; exact h2st.trans h1st
  rw [hrun]
  constructor
  · rw [start_resume env tResume (pause s2) h3r h3p]
    exact h3st
  · intro later hlater
    have h4el : (start env tResume (pause s2)).elapsedTimeInMilliseconds =
        (pause s2).elapsedTimeInMilliseconds := start_elapsed env tResume (pause s2)
    have hmono := run_elapsed_mono env later (start env tResume (pause s2)) hlater
    rw [← h4el]
    exact hmono

/-- Witness for C3: start at 0, two non-overflowing ticks at 16 and 32,
pause, resume at 600. -/
theorem claim_C3_witness :
    GoodEnv envPlain ∧
    ticksOkFrom 167 0 [16, 32] = true ∧
    ((start envPlain 600
        (run envPlain (initState 167)
          (pauseResumeTrace [0] [1] 0 [16, 32]))).startTimestamp = 0 ∧
     ∀ (later : List Op),
       opsOk envPlain
         (start envPlain 600
           (run envPlain (initState 167) (pauseResumeTrace [0] [1] 0 [16, 32])))
         later = true →
       (run envPlain (initState 167)
           (pauseResumeTrace [0] [1] 0 [16, 32])).elapsedTimeInMilliseconds ≤
         (run envPlain
           (start envPlain 600
             (run envPlain (initState 167) (pauseResumeTrace [0] [1] 0 [16, 32])))
           later).elapsedTimeInMilliseconds) :=
  ⟨fun _ => by show (1 : Int) ≠ -1; decide,
   by decide,
   claim_C3 envPlain (fun _ => by show (1 : Int) ≠ -1; decide) 167 [0] [1] 0
     [16, 32] 600 (by decide)⟩

end ProjectGamepad
